import Mathlib

/-!
Verification development for the TCP echo server in src/tcpsockets.py.

The file shallowly embeds the three functions of the source module:

* handle_clientconnection (lines 6-16): a per-connection loop that calls
  recv(1024), decodes the bytes as UTF-8, breaks on empty data, prints a
  received-line, and sends back "Server received: " followed by the data;
  a bare except turns any exception into a break, and the socket is closed
  after the loop.
* start_server (lines 19-33): bind/listen, then an accept loop that spawns
  one handler thread per accepted connection; a bare except around the whole
  body prints a fixed message.
* start_client (lines 34-45): a def whose suite is a single docstring; the
  try/except below it is written at indentation 0, hence at module scope.

Sessions are modelled by the sequence of outcomes of their blocking calls
(recv results, decode failures, send failures), the accept loop by the
sequence of accept outcomes.  Bytes are Nat values; UTF-8 encoding is
implemented from the standard, since the source encodes and decodes UTF-8.
-/

/-- UTF-8 encoding of one code point, as Python's str.encode would produce. -/
def utf8Char (c : Char) : List Nat :=
  let n := c.toNat
  if n < 128 then [n]
  else if n < 2048 then [192 + n / 64, 128 + n % 64]
  else if n < 65536 then [224 + n / 4096, 128 + n / 64 % 64, 128 + n % 64]
  else [240 + n / 262144, 128 + n / 4096 % 64, 128 + n / 64 % 64, 128 + n % 64]

/-- UTF-8 encoding of a string, one byte per Nat. -/
def utf8Bytes (s : String) : List Nat :=
  (s.data.map utf8Char).flatten

/-- Number of bytes in the UTF-8 encoding of a string. -/
def utf8Len (s : String) : Nat :=
  (utf8Bytes s).length

theorem utf8Bytes_append (s t : String) :
    utf8Bytes (s ++ t) = utf8Bytes s ++ utf8Bytes t := by
  cases s with
  | mk a =>
    cases t with
    | mk b =>
      show (List.map utf8Char (a ++ b)).flatten
          = (List.map utf8Char a).flatten ++ (List.map utf8Char b).flatten
      rw [List.map_append, List.flatten_append]

theorem utf8Len_append (s t : String) :
    utf8Len (s ++ t) = utf8Len s + utf8Len t := by
  simp [utf8Len, utf8Bytes_append]

/-- Concatenation of a list of strings, in order. -/
def concatAll : List String → String
  | [] => ""
  | s :: rest => s ++ concatAll rest

theorem utf8Len_concatAll (cs : List String) :
    utf8Len (concatAll cs) = (cs.map utf8Len).sum := by
  induction cs with
  | nil => rfl
  | cons c rest ih => simp [concatAll, utf8Len_append, ih]

/-- Exceptions raised by the library calls the source makes. -/
inductive PyError
  | osError
  | unicodeDecodeError
  | nameError
  deriving DecidableEq

/-- Fixed response text of line 13, the part before the echoed data. -/
def echoPre : String := "Server received: "

/-- Fixed log text of line 12, the part before the echoed data. -/
def recvLogPre : String := "Received from client: "

/-- Outcome of one iteration of the blocking calls in lines 9-13: recv
returned bytes that decoded to a string d (an empty d is how Python reports
an orderly peer close), recv raised, decode raised on invalid UTF-8, or the
data arrived but sendall raised. -/
inductive IterEvent
  | recvOk (d : String)
  | recvErr
  | decodeErr
  | sendErr (d : String)
  deriving DecidableEq

/-- The try-suite of one loop iteration (lines 8-13), before the except
clause applies.  Result: bytes written to the socket, lines printed, and
either a raised error or a flag telling whether the loop continues.  On
empty data the loop breaks (line 11) before printing.  When sendall raises,
the print of line 12 has already happened but no bytes were written. -/
def tryBody : IterEvent → List (List Nat) × List String × Except PyError Bool
  | .recvOk d =>
      if d = "" then ([], [], .ok false)
      else ([utf8Bytes (echoPre ++ d)], [recvLogPre ++ d], .ok true)
  | .recvErr => ([], [], .error .osError)
  | .decodeErr => ([], [], .error .unicodeDecodeError)
  | .sendErr d =>
      if d = "" then ([], [], .ok false)
      else ([], [recvLogPre ++ d], .error .osError)

/-- Accumulated observable state of the while loop of lines 7-15. -/
structure LoopOut where
  sends : List (List Nat)
  logs : List String
  caught : List PyError
  exited : Bool
  escaped : Option PyError
  deriving DecidableEq

/-- The while loop of lines 7-15 over a sequence of iteration outcomes.
The bare except of line 14 catches every error the body raises and line 15
breaks; the caught error is recorded in `caught` and nothing is re-raised.
An exhausted event list models a loop still blocked in recv: it has not
exited. -/
def sessionLoop : List IterEvent → LoopOut
  | [] => ⟨[], [], [], false, none⟩
  | e :: rest =>
    match tryBody e with
    | (sd, lg, .ok true) =>
        let L := sessionLoop rest
        ⟨sd ++ L.sends, lg ++ L.logs, L.caught, L.exited, L.escaped⟩
    | (sd, lg, .ok false) => ⟨sd, lg, [], true, none⟩
    | (sd, lg, .error e2) => ⟨sd, lg, [e2], true, none⟩

/-- Observable result of running handle_clientconnection on one
connection. -/
structure SessionResult where
  sends : List (List Nat)
  logs : List String
  caught : List PyError
  terminated : Bool
  socketClosed : Bool
  raised : Option PyError
  deriving DecidableEq

/-- Lines 6-16: run the loop; client_socket.close() on line 16 executes when
control leaves the loop without an escaping exception (an exception escaping
the loop would skip line 16 and leave the function abnormally). -/
def handle_clientconnection (events : List IterEvent) : SessionResult :=
  let L := sessionLoop events
  { sends := L.sends
    logs := L.logs
    caught := L.caught
    terminated := L.exited || L.escaped.isSome
    socketClosed := L.exited && L.escaped.isNone
    raised := L.escaped }

/-- The chunks the loop answers with an echo: successful nonempty receives
up to the first loop exit. -/
def sentChunks : List IterEvent → List String
  | [] => []
  | .recvOk d :: rest => if d = "" then [] else d :: sentChunks rest
  | .recvErr :: _ => []
  | .decodeErr :: _ => []
  | .sendErr _ :: _ => []

/-- The chunks the loop prints a received-line for: like `sentChunks`, but a
chunk whose send fails is still printed first (line 12 precedes line 13). -/
def loggedChunks : List IterEvent → List String
  | [] => []
  | .recvOk d :: rest => if d = "" then [] else d :: loggedChunks rest
  | .recvErr :: _ => []
  | .decodeErr :: _ => []
  | .sendErr d :: _ => if d = "" then [] else [d]

theorem sessionLoop_escaped_none (evs : List IterEvent) :
    (sessionLoop evs).escaped = none := by
  induction evs with
  | nil => rfl
  | cons e rest ih =>
    simp only [sessionLoop]
    split
    · simpa using ih
    · rfl
    · rfl

theorem sessionLoop_sends_eq (evs : List IterEvent) :
    (sessionLoop evs).sends
      = (sentChunks evs).map (fun d => utf8Bytes (echoPre ++ d)) := by
  induction evs with
  | nil => rfl
  | cons e rest ih =>
    cases e with
    | recvOk d =>
      by_cases hd : d = ""
      · simp [sessionLoop, tryBody, sentChunks, hd]
      · simp [sessionLoop, tryBody, sentChunks, hd, ih]
    | recvErr => rfl
    | decodeErr => rfl
    | sendErr d =>
      by_cases hd : d = ""
      · simp [sessionLoop, tryBody, sentChunks, hd]
      · simp [sessionLoop, tryBody, sentChunks, hd]

theorem sessionLoop_logs_eq (evs : List IterEvent) :
    (sessionLoop evs).logs
      = (loggedChunks evs).map (fun d => recvLogPre ++ d) := by
  induction evs with
  | nil => rfl
  | cons e rest ih =>
    cases e with
    | recvOk d =>
      by_cases hd : d = ""
      · simp [sessionLoop, tryBody, loggedChunks, hd]
      · simp [sessionLoop, tryBody, loggedChunks, hd, ih]
    | recvErr => rfl
    | decodeErr => rfl
    | sendErr d =>
      by_cases hd : d = ""
      · simp [sessionLoop, tryBody, loggedChunks, hd]
      · simp [sessionLoop, tryBody, loggedChunks, hd]

theorem sentChunks_all_ok (cs : List String) (h : ∀ c ∈ cs, c ≠ "") :
    sentChunks (cs.map IterEvent.recvOk) = cs := by
  induction cs with
  | nil => rfl
  | cons c rest ih =>
    have hc : c ≠ "" := h c (by simp)
    simp only [List.map_cons, sentChunks, if_neg hc]
    rw [ih fun x hx => h x (by simp [hx])]

/-- Outcome of one call to server_socket.accept() on line 27: a connection
(with a numeric peer address and the iteration outcomes its handler will
see), or a raised error. -/
inductive AcceptEvent
  | conn (cid : Nat) (events : List IterEvent)
  | acceptErr
  deriving DecidableEq

/-- Fixed log text of line 28, the part before the peer address. -/
def acceptLogPre : String := "Connection was accepted from "

/-- Fixed message printed by the except clause of lines 32-33. -/
def serverErrMsg : String := "Error encountered in start_server"

/-- Accumulated observable state of the accept loop of lines 26-30. -/
structure AcceptOut where
  logs : List String
  sessions : List (Nat × SessionResult)
  err : Option PyError
  deriving DecidableEq

/-- The accept loop of lines 26-30: every accepted connection is logged and
handed unconditionally to a new handler thread; each spawned handler runs
handle_clientconnection on that connection's own events.  A raised accept
error leaves the loop with that error pending.  An exhausted event list
models a loop still blocked in accept. -/
def acceptLoop : List AcceptEvent → AcceptOut
  | [] => ⟨[], [], none⟩
  | .conn cid evs :: rest =>
    let R := acceptLoop rest
    ⟨(acceptLogPre ++ toString cid) :: R.logs,
     (cid, handle_clientconnection evs) :: R.sessions, R.err⟩
  | .acceptErr :: _ => ⟨[], [], some .osError⟩

/-- Observable result of a call to start_server. -/
structure ServerResult where
  logs : List String
  sessions : List (Nat × SessionResult)
  raised : Option PyError
  deriving DecidableEq

/-- Lines 19-33.  bindErr is the outcome of the bind call of line 22.  The
try of line 20 spans the whole body, so a bind failure or an accept failure
is caught by the bare except of line 32, which prints a fixed message; the
function always returns normally.  Handler threads spawned before an accept
failure keep running, so their session results remain. -/
def start_server (host : String) (port : Nat) (bindErr : Option PyError)
    (accepts : List AcceptEvent) : ServerResult :=
  match bindErr with
  | some _ => ⟨[serverErrMsg], [], none⟩
  | none =>
    let R := acceptLoop accepts
    match R.err with
    | none =>
        ⟨("Server listening on " ++ host ++ ":" ++ toString port) :: R.logs,
         R.sessions, none⟩
    | some _ =>
        ⟨(("Server listening on " ++ host ++ ":" ++ toString port) :: R.logs)
            ++ [serverErrMsg],
         R.sessions, none⟩

/-- The connections the accept loop reaches: every connection accepted
before the first accept error. -/
def acceptedConns : List AcceptEvent → List (Nat × List IterEvent)
  | [] => []
  | .conn cid evs :: rest => (cid, evs) :: acceptedConns rest
  | .acceptErr :: _ => []

/-- Forget the per-connection session events, keeping the accept outcome. -/
def stripConnEvents : AcceptEvent → AcceptEvent
  | .conn cid _ => .conn cid []
  | .acceptErr => .acceptErr

/-- Exit status of a Python process whose top-level call either returned
normally or died on an uncaught exception. -/
def pythonExitCode (raised : Option PyError) : Nat :=
  match raised with
  | none => 0
  | some _ => 1

theorem acceptLoop_sessions (accepts : List AcceptEvent) :
    (acceptLoop accepts).sessions
      = (acceptedConns accepts).map
          (fun ce => (ce.1, handle_clientconnection ce.2)) := by
  induction accepts with
  | nil => rfl
  | cons a rest ih =>
    cases a with
    | conn cid evs => simp [acceptLoop, acceptedConns, ih]
    | acceptErr => rfl

theorem start_server_sessions (host : String) (port : Nat)
    (accepts : List AcceptEvent) :
    (start_server host port none accepts).sessions
      = (acceptedConns accepts).map
          (fun ce => (ce.1, handle_clientconnection ce.2)) := by
  simp only [start_server]
  split
  · exact acceptLoop_sessions accepts
  · exact acceptLoop_sessions accepts

theorem acceptLoop_strip (accepts : List AcceptEvent) :
    (acceptLoop (accepts.map stripConnEvents)).logs = (acceptLoop accepts).logs
      ∧ (acceptLoop (accepts.map stripConnEvents)).err
          = (acceptLoop accepts).err := by
  induction accepts with
  | nil => exact ⟨rfl, rfl⟩
  | cons a rest ih =>
    cases a with
    | conn cid evs => simp [acceptLoop, stripConnEvents, ih.1, ih.2]
    | acceptErr => exact ⟨rfl, rfl⟩

theorem start_server_logs_strip (host : String) (port : Nat)
    (accepts : List AcceptEvent) :
    (start_server host port none accepts).logs
      = (start_server host port none (accepts.map stripConnEvents)).logs := by
  rcases acceptLoop_strip accepts with ⟨hlogs, herr⟩
  simp only [start_server]
  rw [herr, hlogs]
  cases h : (acceptLoop accepts).err <;> simp

/-- Big-endian 4-byte encoding of an unsigned length. -/
def be32 (n : Nat) : List Nat :=
  [n / 16777216 % 256, n / 65536 % 256, n / 256 % 256, n % 256]

/-- Value of a big-endian 4-byte length field. -/
def fromBE32 : List Nat → Nat
  | [b0, b1, b2, b3] => ((b0 * 256 + b1) * 256 + b2) * 256 + b3
  | _ => 0

/-- Modelled from the spec: the wire format of section 6.  A byte sequence
is framed when its first four bytes are a big-endian length field covering
exactly the payload that follows.  The source writes no such field; the
definition exists to compare the writes of the source against the format
the spec prescribes. -/
def isFramed (w : List Nat) : Prop :=
  4 ≤ w.length ∧ w.take 4 = be32 (w.length - 4)

instance (w : List Nat) : Decidable (isFramed w) := by
  unfold isFramed
  exact inferInstance

/-- Modelled from the spec: the configured maximum frame size; section 6
recommends a default of 1 MiB.  The repository contains no Frame Codec at
all, so this constant and the two functions below follow the words of
sections 4.1 and 6. -/
def MAX_FRAME_SIZE : Nat := 1048576

/-- Modelled from the spec: the error taxonomy of section 7 that the Frame
Codec reports. -/
inductive CodecError
  | frameTooLarge
  | protocolViolation
  | connectionClosed
  deriving DecidableEq

/-- Modelled from the spec: section 4.1.  encode prepends a fixed-width
big-endian length field, covering payload length only, to the payload, and
fails with FrameTooLarge when the payload length exceeds the configured
maximum. -/
def encode (p : List Nat) : Except CodecError (List Nat) :=
  if MAX_FRAME_SIZE < p.length then .error .frameTooLarge
  else .ok (be32 p.length ++ p)

/-- Modelled from the spec: section 4.1.  decode_next reads exactly the
length field, validates it against the maximum, then reads exactly that
many bytes, returning the frame and the unread remainder of the stream; it
fails with ProtocolViolation when the advertised length exceeds the
maximum, and with ConnectionClosed when the stream ends before a complete
frame is read. -/
def decode_next (stream : List Nat) :
    Except CodecError (List Nat × List Nat) :=
  if stream.length < 4 then .error .connectionClosed
  else if MAX_FRAME_SIZE < fromBE32 (stream.take 4) then
    .error .protocolViolation
  else if stream.length < 4 + fromBE32 (stream.take 4) then
    .error .connectionClosed
  else
    .ok ((stream.drop 4).take (fromBE32 (stream.take 4)),
         (stream.drop 4).drop (fromBE32 (stream.take 4)))

theorem fromBE32_be32 (n : Nat) (h : n < 4294967296) :
    fromBE32 (be32 n) = n := by
  simp only [be32, fromBE32]
  omega

/-- The statements appearing in lines 34-45 of the source module. -/
inductive PyStmt
  | defHeader (name : String)
  | docstring (s : String)
  | tryHeader
  | assignSocket
  | connectCall
  | sendallCall
  | recvAssign
  | printRecv
  | closeCall
  | exceptHeader
  | printClientErr
  deriving DecidableEq

/-- One physical line: its indentation depth and its statement. -/
structure SrcLine where
  indent : Nat
  stmt : PyStmt
  deriving DecidableEq

/-- Lines 34-45 of src/tcpsockets.py, with the indentation each line has in
the file: the def header and the try/except headers are at column 0, the
docstring and the try-suite at column 2, the except-suite at column 4. -/
def clientTail : List SrcLine :=
  [⟨0, .defHeader "start_client"⟩,
   ⟨2, .docstring "Starts a TCP client."⟩,
   ⟨0, .tryHeader⟩,
   ⟨2, .assignSocket⟩,
   ⟨2, .connectCall⟩,
   ⟨2, .sendallCall⟩,
   ⟨2, .recvAssign⟩,
   ⟨2, .printRecv⟩,
   ⟨2, .closeCall⟩,
   ⟨0, .exceptHeader⟩,
   ⟨4, .printClientErr⟩]

/-- Python's block rule: the suite of a def statement is the maximal run of
following lines indented strictly deeper than the def line. -/
def defSuite (lines : List SrcLine) : List SrcLine :=
  match lines with
  | ⟨i, PyStmt.defHeader _⟩ :: rest => rest.takeWhile fun l => i < l.indent
  | _ => []

/-- The body Python gives to start_client. -/
def startClientBody : List SrcLine := defSuite clientTail

/-- Python's block rule at module scope: a def statement binds a name and
skips its suite; execution resumes at the first following line whose
indentation does not exceed the def line. -/
def afterDefSuite (lines : List SrcLine) : List SrcLine :=
  match lines with
  | ⟨i, PyStmt.defHeader _⟩ :: rest => rest.dropWhile fun l => i < l.indent
  | other => other

/-- Network-visible operations of the client code. -/
inductive NetAction
  | socketCreate
  | connect (host : String) (port : Nat)
  | send (payload : List Nat)
  | recv
  | close
  deriving DecidableEq

/-- Effect of one simple statement evaluated in the scope of a call
start_client(host, port, message), where the three parameters are bound. -/
def funcStmtEff (host : String) (port : Nat) (message : String) :
    PyStmt → List NetAction
  | .assignSocket => [.socketCreate]
  | .connectCall => [.connect host port]
  | .sendallCall => [.send (utf8Bytes message)]
  | .recvAssign => [.recv]
  | .closeCall => [.close]
  | _ => []

/-- Calling start_client(host, port, message) executes the def body that
Python extracted for it; the body contains no return statement, so the call
returns None. -/
def start_client (host : String) (port : Nat) (message : String) :
    List NetAction × Option Unit :=
  ((startClientBody.map fun l => funcStmtEff host port message l.stmt).flatten,
   none)

/-- Effect of one simple statement evaluated at module scope.  The names
host, port, message and data are parameters and locals of start_client and
are not bound at module scope, so evaluating any of them raises NameError;
client_socket is bound at module scope by line 37 before its uses, and
calling recv on that never-connected socket would raise OSError. -/
def moduleStmtEff : PyStmt → List NetAction × List String × Option PyError
  | .assignSocket => ([.socketCreate], [], none)
  | .connectCall => ([], [], some .nameError)
  | .sendallCall => ([], [], some .nameError)
  | .recvAssign => ([], [], some .osError)
  | .printRecv => ([], [], some .nameError)
  | .closeCall => ([.close], [], none)
  | .printClientErr => ([], ["Error encountered in start_client"], none)
  | _ => ([], [], none)

/-- Execute a run of simple statements in order, stopping at the first
raised error and reporting it. -/
def runSimpleSeq : List PyStmt → List NetAction × List String × Option PyError
  | [] => ([], [], none)
  | s :: rest =>
    match moduleStmtEff s with
    | (a, lg, some e) => (a, lg, some e)
    | (a, lg, none) =>
      let r := runSimpleSeq rest
      (a ++ r.1, lg ++ r.2.1, r.2.2)

/-- Execute a top-level try statement and the except clause that follows it
at the same indentation: the try-suite runs until its first raise; when it
raised, the except-suite runs. -/
def runTryExcept (lines : List SrcLine) : List NetAction × List String :=
  match lines with
  | ⟨i, PyStmt.tryHeader⟩ :: rest =>
    let suite := (rest.takeWhile fun l => i < l.indent).map SrcLine.stmt
    let after := rest.dropWhile fun l => i < l.indent
    match runSimpleSeq suite, after with
    | (acts, lgs, some _), ⟨j, PyStmt.exceptHeader⟩ :: rest2 =>
        let hsuite := (rest2.takeWhile fun l => j < l.indent).map SrcLine.stmt
        let r2 := runSimpleSeq hsuite
        (acts ++ r2.1, lgs ++ r2.2.1)
    | (acts, lgs, _), _ => (acts, lgs)
  | _ => ([], [])

/-- What the module tail does when src/tcpsockets.py is loaded: the def of
line 34 binds start_client, then the top-level try/except of lines 36-45
executes at module scope. -/
def moduleTailRun : List NetAction × List String :=
  runTryExcept (afterDefSuite clientTail)

/-- Claim C1: for a request payload P delivered in one recv within the size
bound of the code (1024 UTF-8 bytes, the recv buffer size of line 9), the
session writes exactly one response, the UTF-8 bytes of "Server received: "
followed by P, before it processes anything further; and in a server run
every session's output is computed by handle_clientconnection from that
session's own events alone, so the response reaches only the session that
sent P. -/
theorem echo_response_exactly_once (P : String) (rest : List IterEvent)
    (host : String) (port : Nat) (accepts : List AcceptEvent)
    (hne : P ≠ "") (hsz : utf8Len P ≤ 1024) :
    (handle_clientconnection (IterEvent.recvOk P :: rest)).sends
        = utf8Bytes (echoPre ++ P) :: (handle_clientconnection rest).sends
      ∧ (start_server host port none accepts).sessions
        = (acceptedConns accepts).map
            (fun ce => (ce.1, handle_clientconnection ce.2)) := by
  constructor
  · simp [handle_clientconnection, sessionLoop, tryBody, hne]
  · exact start_server_sessions host port accepts

/-- Witness for C1 at P = "hello" on a server with one idle accepted
connection. -/
theorem echo_response_exactly_once_witness :
    (handle_clientconnection [IterEvent.recvOk "hello"]).sends
        = utf8Bytes (echoPre ++ "hello") :: (handle_clientconnection []).sends
      ∧ (start_server "localhost" 9090 none [AcceptEvent.conn 0 []]).sessions
        = (acceptedConns [AcceptEvent.conn 0 []]).map
            (fun ce => (ce.1, handle_clientconnection ce.2)) :=
  echo_response_exactly_once "hello" [] "localhost" 9090
    [AcceptEvent.conn 0 []] (by decide) (by decide)

/-- Claim C2 fails on the code: the response the server writes for the
request "hi" is the bare UTF-8 text "Server received: hi" with no 4-byte
big-endian length field in front of it. -/
theorem unframed_write_counterexample :
    (handle_clientconnection [IterEvent.recvOk "hi"]).sends
        = [utf8Bytes "Server received: hi"]
      ∧ ¬ isFramed (utf8Bytes "Server received: hi") := by
  constructor
  · decide
  · decide

/-- Claim C2 as amended: every message the server writes to the wire is the
raw UTF-8 encoding of "Server received: " followed by the received chunk,
with no length field prepended; no size check is made and nothing can fail
with FrameTooLarge. -/
theorem raw_utf8_writes (evs : List IterEvent) :
    (handle_clientconnection evs).sends
      = (sentChunks evs).map (fun d => utf8Bytes (echoPre ++ d)) := by
  simpa [handle_clientconnection] using sessionLoop_sends_eq evs

/-- Claim C3: decoding the frame produced by encoding an in-bounds payload
yields exactly that payload, with nothing left unread. -/
theorem codec_roundtrip (p : List Nat) (hp : p.length ≤ MAX_FRAME_SIZE) :
    encode p = Except.ok (be32 p.length ++ p)
      ∧ decode_next (be32 p.length ++ p) = Except.ok (p, []) := by
  have hmax : ¬ MAX_FRAME_SIZE < p.length := not_lt.mpr hp
  have h32 : p.length < 4294967296 := by
    have hM : MAX_FRAME_SIZE = 1048576 := rfl
    omega
  have e1 : (be32 p.length ++ p).length = 4 + p.length := by
    simp [be32]
    omega
  have e2 : (be32 p.length ++ p).take 4 = be32 p.length :=
    List.take_left' (by simp [be32])
  have e3 : (be32 p.length ++ p).drop 4 = p :=
    List.drop_left' (by simp [be32])
  refine ⟨by simp [encode, hmax], ?_⟩
  unfold decode_next
  rw [e2, fromBE32_be32 p.length h32, e1, e3]
  rw [if_neg (by omega), if_neg hmax, if_neg (by omega)]
  rw [List.take_length, List.drop_length]

/-- Witness for C3 at the payload [10, 20, 30]. -/
theorem codec_roundtrip_witness :
    List.length [10, 20, 30] ≤ MAX_FRAME_SIZE
      ∧ (encode [10, 20, 30]
            = Except.ok (be32 (List.length [10, 20, 30]) ++ [10, 20, 30])
          ∧ decode_next (be32 (List.length [10, 20, 30]) ++ [10, 20, 30])
            = Except.ok ([10, 20, 30], [])) :=
  ⟨by decide, codec_roundtrip [10, 20, 30] (by decide)⟩

/-- Claim C4: no error leaves a session's handler (the bare except of line
14 turns every raised error into a break), the listener's log and accept
behavior do not depend on what happens inside any session, and every
session's result is a function of that session's own events alone, so an
error in one session leaves the listener and all other sessions
unchanged. -/
theorem session_failure_isolation :
    (∀ evs, (handle_clientconnection evs).raised = none)
      ∧ (∀ host port accepts,
          (start_server host port none accepts).logs
            = (start_server host port none
                (accepts.map stripConnEvents)).logs)
      ∧ (∀ host port accepts,
          (start_server host port none accepts).sessions
            = (acceptedConns accepts).map
                (fun ce => (ce.1, handle_clientconnection ce.2))) := by
  refine ⟨?_, ?_, ?_⟩
  · intro evs
    simp [handle_clientconnection, sessionLoop_escaped_none]
  · intro host port accepts
    exact start_server_logs_strip host port accepts
  · intro host port accepts
    exact start_server_sessions host port accepts

/-- Claim C5 fails on the code: the accept loop has no capacity check, so
with two sessions already live a third accepted connection is still given
its own session rather than being rejected or dropped. -/
theorem no_admission_control_counterexample :
    ((start_server "localhost" 9090 none
        [AcceptEvent.conn 0 [], AcceptEvent.conn 1 [],
         AcceptEvent.conn 2 []]).sessions.map Prod.fst) = [0, 1, 2] := by
  decide

/-- Claim C5 as amended: the server enforces no concurrency ceiling; every
connection accepted before the first accept error is unconditionally given
its own session. -/
theorem every_connection_admitted (host : String) (port : Nat)
    (accepts : List AcceptEvent) :
    (start_server host port none accepts).sessions.length
      = (acceptedConns accepts).length := by
  rw [start_server_sessions, List.length_map]

/-- Claim C6: whenever the session's loop terminates - peer orderly close,
I/O error, or decode error - client_socket.close() on line 16 has run: the
loop is left only by break (the bare except converts every raised error
into one), and line 16 follows the loop unconditionally. -/
theorem socket_closed_on_exit (evs : List IterEvent)
    (h : (handle_clientconnection evs).terminated = true) :
    (handle_clientconnection evs).socketClosed = true := by
  have hesc := sessionLoop_escaped_none evs
  simp [handle_clientconnection, hesc] at h ⊢
  exact h

/-- Witness for C6 on a session whose peer closes after one exchange. -/
theorem socket_closed_on_exit_witness :
    (handle_clientconnection
        [IterEvent.recvOk "hi", IterEvent.recvOk ""]).socketClosed = true :=
  socket_closed_on_exit [IterEvent.recvOk "hi", IterEvent.recvOk ""]
    (by decide)

/-- Claim C7 fails on the code: when recv raises, the bare except of line
14 catches the error and the session prints nothing at all - the caught
error leaves no record of its type or occurrence. -/
theorem swallowed_error_counterexample :
    (handle_clientconnection [IterEvent.recvErr]).caught = [PyError.osError]
      ∧ (handle_clientconnection [IterEvent.recvErr]).logs = [] := by
  constructor
  · decide
  · decide

/-- Claim C7 as amended: the session handler discards every caught error
without any log record - its only output lines are the received-data
prints - and the listener's except clause prints one fixed line that is
identical whatever error was caught, so the error's type is never
recorded. -/
theorem no_error_record_logged :
    (∀ evs, (handle_clientconnection evs).logs
        = (loggedChunks evs).map (fun d => recvLogPre ++ d))
      ∧ (∀ host port e e2 accepts,
          start_server host port (some e) accepts
            = start_server host port (some e2) accepts) := by
  constructor
  · intro evs
    simpa [handle_clientconnection] using sessionLoop_logs_eq evs
  · intro host port e e2 accepts
    rfl

/-- Claim C8 fails on the code: a bind failure is caught inside
start_server by the bare except of line 32, which prints a fixed message;
nothing propagates to the caller and the process exit status is 0. -/
theorem bind_failure_counterexample :
    (start_server "localhost" 8080 (some PyError.osError) []).raised = none
      ∧ (start_server "localhost" 8080 (some PyError.osError) []).logs
          = [serverErrMsg]
      ∧ pythonExitCode
          (start_server "localhost" 8080 (some PyError.osError) []).raised
          = 0 := by
  refine ⟨rfl, rfl, rfl⟩

/-- Claim C8 as amended: whatever error the bind call raises, start_server
catches it locally, prints the fixed message "Error encountered in
start_server", spawns no session, returns normally, and the process exit
status is 0; nothing reaches the process entry point. -/
theorem bind_failure_handled_locally (host : String) (port : Nat)
    (e : PyError) (accepts : List AcceptEvent) :
    start_server host port (some e) accepts
        = ⟨[serverErrMsg], [], none⟩
      ∧ pythonExitCode (start_server host port (some e) accepts).raised
          = 0 := by
  exact ⟨rfl, rfl⟩

/-- Claim C9: calling start_client performs no network action and returns
None, because the def body Python extracts by the indentation rule is the
docstring line alone; the try/except below it sits at indentation 0, so it
runs at module scope when the file is loaded - where it creates a socket
and then dies on a NameError (host is not bound at module scope) that the
bare except answers with a fixed print. -/
theorem start_client_is_empty (host : String) (port : Nat)
    (message : String) :
    start_client host port message = ([], none)
      ∧ startClientBody = [⟨2, PyStmt.docstring "Starts a TCP client."⟩]
      ∧ moduleTailRun
          = ([NetAction.socketCreate],
             ["Error encountered in start_client"]) := by
  exact ⟨rfl, rfl, rfl⟩

/-- Claim C10: each recv of line 9 yields at most 1024 bytes, so when a
logical message M longer than 1024 UTF-8 bytes reaches the loop as a
sequence of nonempty chunks of at most 1024 bytes each, every single
response is at most the 17-byte fixed text plus 1024 bytes, at least two
independent chunk echoes are written, and no response equals the one-shot
echo of the whole of M. -/
theorem chunked_echo_bound (M : String) (cs : List String)
    (hjoin : concatAll cs = M)
    (hne : ∀ c ∈ cs, c ≠ "")
    (hsz : ∀ c ∈ cs, utf8Len c ≤ 1024)
    (hbig : 1024 < utf8Len M) :
    (∀ w ∈ (handle_clientconnection (cs.map IterEvent.recvOk)).sends,
        w.length ≤ utf8Len echoPre + 1024)
      ∧ 2 ≤ (handle_clientconnection (cs.map IterEvent.recvOk)).sends.length
      ∧ ∀ w ∈ (handle_clientconnection (cs.map IterEvent.recvOk)).sends,
          w ≠ utf8Bytes (echoPre ++ M) := by
  have hsends : (handle_clientconnection (cs.map IterEvent.recvOk)).sends
      = cs.map (fun d => utf8Bytes (echoPre ++ d)) := by
    have h1 := sessionLoop_sends_eq (cs.map IterEvent.recvOk)
    rw [sentChunks_all_ok cs hne] at h1
    simpa [handle_clientconnection] using h1
  refine ⟨?_, ?_, ?_⟩
  · intro w hw
    rw [hsends] at hw
    rcases List.mem_map.mp hw with ⟨c, hc, rfl⟩
    have hlen : (utf8Bytes (echoPre ++ c)).length
        = utf8Len echoPre + utf8Len c := utf8Len_append echoPre c
    rw [hlen]
    have := hsz c hc
    omega
  · rw [hsends, List.length_map]
    match cs, hjoin with
    | [], hjoin =>
      rw [← hjoin] at hbig
      have h0 : utf8Len (concatAll []) = 0 := rfl
      omega
    | [c], hjoin =>
      have hc : utf8Len c ≤ 1024 := hsz c (by simp)
      have h1 : utf8Len (concatAll [c]) = utf8Len c := by
        simp [utf8Len_concatAll]
      rw [← hjoin] at hbig
      omega
    | c :: c2 :: rest, hjoin => simp
  · intro w hw heq
    rw [hsends] at hw
    rcases List.mem_map.mp hw with ⟨c, hc, rfl⟩
    have hlen : utf8Len (echoPre ++ c) = utf8Len (echoPre ++ M) :=
      congrArg List.length heq
    rw [utf8Len_append, utf8Len_append] at hlen
    have := hsz c hc
    omega

set_option maxRecDepth 40000 in
/-- Witness for C10: a 1026-byte message of letters delivered as two
513-byte chunks. -/
theorem chunked_echo_bound_witness :
    (∀ w ∈ (handle_clientconnection
        ([String.mk (List.replicate 513 'a'),
          String.mk (List.replicate 513 'a')].map IterEvent.recvOk)).sends,
        w.length ≤ utf8Len echoPre + 1024)
      ∧ 2 ≤ (handle_clientconnection
          ([String.mk (List.replicate 513 'a'),
            String.mk (List.replicate 513 'a')].map
              IterEvent.recvOk)).sends.length
      ∧ ∀ w ∈ (handle_clientconnection
          ([String.mk (List.replicate 513 'a'),
            String.mk (List.replicate 513 'a')].map IterEvent.recvOk)).sends,
          w ≠ utf8Bytes (echoPre ++ String.mk (List.replicate 1026 'a')) :=
  chunked_echo_bound (String.mk (List.replicate 1026 'a'))
    [String.mk (List.replicate 513 'a'), String.mk (List.replicate 513 'a')]
    (by
      show String.mk (List.replicate 513 'a')
          ++ (String.mk (List.replicate 513 'a') ++ "") = _
      have h1 : String.mk (List.replicate 513 'a')
          ++ (String.mk (List.replicate 513 'a') ++ "")
          = String.mk (List.replicate 513 'a' ++ (List.replicate 513 'a' ++ [])) := rfl
      rw [h1, List.append_nil, ← List.replicate_add])
    (by decide)
    (by decide)
    (by decide)
